import Mathlib

/-!
Verification development for the AgriChain post-harvest advisory core.

The JavaScript sources are embedded shallowly:
  * JS numbers that carry measurements (temperature, humidity, rainfall,
    shelf-life days, risk fractions) are modelled as `ℚ`;
  * whole-day date arithmetic (`daysBetween`, midnight-aligned) is modelled
    by representing a parsed date as its day number (`Int`), an unparseable
    date (`NaN`-valued `Date`) as `none`;
  * `x || d` on numbers/strings (falsy default) and `x ?? d` (nullish
    default) are modelled by `jsOrNum` / `jsOrStr` / `Option.getD`;
  * fallible operations return `Except String`.
-/

/-- Model of JS `a || d` for numbers: `0` (and absent) falls back to `d`. -/
def jsOrNum (x : Option ℚ) (d : ℚ) : ℚ :=
  match x with
  | some v => if v = 0 then d else v
  | none => d

/-- Model of JS `a || d` for strings: the empty string (and absent) falls back to `d`. -/
def jsOrStr (x : Option String) (d : String) : String :=
  match x with
  | some s => if s = "" then d else s
  | none => d

/-- Model of JS string truthiness: `none` and `""` are falsy. -/
def jsTruthyStr (x : Option String) : Bool :=
  match x with
  | some s => s ≠ ""
  | none => false

/-- Model of JS number truthiness: `none` and `0` are falsy. -/
def jsTruthyNum (x : Option ℚ) : Bool :=
  match x with
  | some v => v ≠ 0
  | none => false

/-- JS `Math.round`: round half toward positive infinity. -/
def jsRound (q : ℚ) : ℤ := ⌊q + 1/2⌋

/-- JS `Math.round(q * 100) / 100` (two-decimal rounding used by the orchestrator). -/
def round2 (q : ℚ) : ℚ := ((jsRound (q * 100) : ℤ) : ℚ) / 100

/-- Shared model of the two identical `daysBetween(a, b)` helpers
(`spoilageRiskEngine.js` and `harvestOrchestrator.js`): whole-day,
midnight-aligned difference `a − b`; `0` when either date is missing or
unparseable (`NaN` check in the source). -/
def jsDaysBetween : Option Int → Option Int → Int
  | some a, some b => a - b
  | _, _ => 0

/-- A weather snapshot; each field is optional to model `weather?.field ?? default`. -/
structure Weather where
  temperature : Option ℚ
  humidity : Option ℚ
  rainfall : Option ℚ
deriving Repr, DecidableEq

/-- A crop record from the Supabase `crops` table (possibly enriched with
storage fields by `fetchCropWithStorage`); optional fields model columns
that the basic record may lack. -/
structure SupaCrop where
  id : String
  crop_name : String
  optimal_storage_temp_min : Option ℚ := none
  optimal_storage_temp_max : Option ℚ := none
  moisture_sensitivity : Option String := none
  shelf_life_days : Option ℚ := none
  storage_type : Option String := none
deriving Repr, DecidableEq

/-- One breakdown row of the spoilage-risk result (factor name and points;
the human-readable detail text of the source is not modelled). -/
structure RiskFactor where
  factor : String
  score : ℕ
deriving Repr, DecidableEq

/-- A storage recommendation entry of `STORAGE_RECOMMENDATIONS`. -/
structure StorageRec where
  recommendation : String
  icon : String
  tips : List String
deriving Repr, DecidableEq

/-- `STORAGE_RECOMMENDATIONS.Dry`. -/
def storageRecDry : StorageRec :=
  { recommendation := "Store in a cool, dry place with low humidity. Use moisture-proof bags or airtight containers. Keep away from direct sunlight."
    icon := "archive-outline"
    tips := ["Use jute or polypropylene bags", "Add neem leaves to prevent insects", "Keep storage area well-ventilated"] }

/-- `STORAGE_RECOMMENDATIONS.Cold`. -/
def storageRecCold : StorageRec :=
  { recommendation := "Requires cold storage facility (2–10°C). Transport quickly after harvest. Do not break the cold chain."
    icon := "snow-outline"
    tips := ["Pre-cool produce before storage", "Maintain consistent temperature", "Check for condensation regularly"] }

/-- `STORAGE_RECOMMENDATIONS.Ventilated`. -/
def storageRecVentilated : StorageRec :=
  { recommendation := "Store in well-ventilated area with good airflow. Avoid stacking too high. Use raised platforms."
    icon := "thunderstorm-outline"
    tips := ["Use bamboo mats or pallets", "Turn produce regularly", "Monitor for sprouting or mold"] }

/-- `STORAGE_RECOMMENDATIONS.Normal`. -/
def storageRecNormal : StorageRec :=
  { recommendation := "Standard indoor storage. Keep in a clean, dry area. Protect from pests and rodents."
    icon := "home-outline"
    tips := ["Use clean storage bags", "Keep away from walls", "Regular pest inspection"] }

/-- The result record of `SpoilageRiskEngine.calculateRisk`.  `daysToHarvest`
is populated only on the pre-harvest early return, mirroring the source. -/
structure RiskResult where
  riskPercentage : ℕ
  riskLevel : String
  isPreHarvest : Bool
  daysSinceHarvest : Int
  daysToHarvest : Option Int
  shelfLifeRemaining : ℚ
  breakdown : List RiskFactor
  storageRecommendation : StorageRec
deriving Repr, DecidableEq

/-- Factor 1 of `calculateRisk`: temperature outside the optimal range scores 30. -/
def tempRiskScore (currentTemp tempMin tempMax : ℚ) : ℕ :=
  if currentTemp < tempMin ∨ currentTemp > tempMax then 30 else 0

/-- Factor 2 of `calculateRisk`: humidity above 75% scores by moisture sensitivity. -/
def humidityRiskScore (currentHumidity : ℚ) (moistureSensitivity : String) : ℕ :=
  if currentHumidity > 75 then
    if moistureSensitivity = "High" then 25
    else if moistureSensitivity = "Medium" then 15
    else 5
  else 0

/-- Factor 3 of `calculateRisk`: days past shelf life scores 40; more than 70%
of shelf life used scores 20. -/
def shelfLifeRiskScore (daysSinceHarvest : Int) (shelfLifeDays : ℚ) : ℕ :=
  if (daysSinceHarvest : ℚ) > shelfLifeDays then 40
  else if (daysSinceHarvest : ℚ) / shelfLifeDays * 100 > 70 then 20
  else 0

/-- Factor 4 of `calculateRisk`: rainfall above 60mm scores 10. -/
def rainfallRiskScore (rainfall : ℚ) : ℕ :=
  if rainfall > 60 then 10 else 0

/-- The source's `clamp(val, min, max)`. -/
def clampNat (v lo hi : ℕ) : ℕ := min (max v lo) hi

namespace SpoilageRiskEngine

/-- `SpoilageRiskEngine.getStorageRecommendation`: table lookup with `Normal` fallback. -/
def getStorageRecommendation (storageType : Option String) : StorageRec :=
  match storageType with
  | some "Dry" => storageRecDry
  | some "Cold" => storageRecCold
  | some "Ventilated" => storageRecVentilated
  | some "Normal" => storageRecNormal
  | _ => storageRecNormal

/-- `SpoilageRiskEngine.calculateRisk`.  `harvestDay` is the parsed harvest
date (`none` when missing or unparseable), `today` the parsed current date;
`daysSinceHarvest = daysBetween(today, harvestDate)`. -/
def calculateRisk (crop : SupaCrop) (harvestDay : Option Int) (today : Int)
    (weather : Option Weather) : RiskResult :=
  let daysSinceHarvest := jsDaysBetween (some today) harvestDay
  if daysSinceHarvest < 0 then
    { riskPercentage := 0
      riskLevel := "Pre-Harvest"
      isPreHarvest := true
      daysSinceHarvest := 0
      daysToHarvest := some daysSinceHarvest.natAbs
      shelfLifeRemaining := jsOrNum crop.shelf_life_days 30
      breakdown := []
      storageRecommendation := getStorageRecommendation crop.storage_type }
  else
    let currentTemp := (weather.bind (·.temperature)).getD 25
    let currentHumidity := (weather.bind (·.humidity)).getD 50
    let rainfall := (weather.bind (·.rainfall)).getD 0
    let tempMin := crop.optimal_storage_temp_min.getD 10
    let tempMax := crop.optimal_storage_temp_max.getD 30
    let moistureSensitivity := jsOrStr crop.moisture_sensitivity "Medium"
    let shelfLifeDays := jsOrNum crop.shelf_life_days 30
    let riskScore :=
      tempRiskScore currentTemp tempMin tempMax
      + humidityRiskScore currentHumidity moistureSensitivity
      + shelfLifeRiskScore daysSinceHarvest shelfLifeDays
      + rainfallRiskScore rainfall
    let riskPercentage := clampNat riskScore 0 100
    { riskPercentage := riskPercentage
      riskLevel :=
        if riskPercentage ≤ 30 then "Low"
        else if riskPercentage ≤ 60 then "Moderate"
        else "High"
      isPreHarvest := false
      daysSinceHarvest := daysSinceHarvest
      daysToHarvest := none
      shelfLifeRemaining := max 0 (shelfLifeDays - (daysSinceHarvest : ℚ))
      breakdown :=
        [⟨"Temperature", tempRiskScore currentTemp tempMin tempMax⟩,
         ⟨"Humidity", humidityRiskScore currentHumidity moistureSensitivity⟩,
         ⟨"Shelf Life", shelfLifeRiskScore daysSinceHarvest shelfLifeDays⟩]
        ++ (if rainfall > 60 then [⟨"Rainfall", 10⟩] else [])
      storageRecommendation := getStorageRecommendation crop.storage_type }

end SpoilageRiskEngine

example :
    (SpoilageRiskEngine.calculateRisk
      { id := "c1", crop_name := "Tomato",
        optimal_storage_temp_min := some 10, optimal_storage_temp_max := some 30,
        moisture_sensitivity := some "High", shelf_life_days := some 20,
        storage_type := some "Cold" }
      (some 0) 5
      (some { temperature := some 35, humidity := some 80, rainfall := some 70 })).riskPercentage
    = 65 := by with_unfolding_all rfl

example :
    (SpoilageRiskEngine.calculateRisk
      { id := "c1", crop_name := "Tomato",
        optimal_storage_temp_min := some 10, optimal_storage_temp_max := some 30,
        moisture_sensitivity := some "High", shelf_life_days := some 20,
        storage_type := some "Cold" }
      (some 0) 30
      (some { temperature := some 35, humidity := some 80, rainfall := some 70 })).riskPercentage
    = 100 := by with_unfolding_all rfl

/-- An advisory record `{ action, message, urgency }`. -/
structure Advisory where
  action : String
  message : String
  urgency : String
deriving Repr, DecidableEq

/-- A farmer's crop from the `user-crops` array in AsyncStorage.  `harvestDate`
distinguishes a missing/empty date (`none`), a present but unparseable date
string (`some none`), and a parseable date (`some (some day)`).  `riskLevel`
is doubly optional because the `approaching_harvest` branch stores an
explicit `null` into the field. -/
structure Crop where
  id : String
  name : Option String := none
  harvestDate : Option (Option Int) := none
  harvestStatus : Option String := none
  riskLevel : Option (Option String) := none
  riskPercentage : Option ℕ := none
  totalRisk : Option ℚ := none
  shelfLifeRemaining : Option ℚ := none
  advisory : Option Advisory := none
  priceTrend : Option String := none
deriving Repr, DecidableEq

namespace HarvestOrchestrator

/-- `detectHarvestStatus(crop)` from `harvestOrchestrator.js`: classify the
crop by `daysToHarvest = daysBetween(harvestDate, today)`. -/
def detectHarvestStatus (crop : Crop) (today : Int) : String :=
  match crop.harvestDate with
  | none => "growing"
  | some harvestDay =>
    let daysToHarvest := jsDaysBetween harvestDay (some today)
    if daysToHarvest > 7 then "growing"
    else if daysToHarvest > 0 ∧ daysToHarvest ≤ 7 then "approaching_harvest"
    else if daysToHarvest ≥ -7 ∧ daysToHarvest ≤ 0 then "ready_for_harvest"
    else "post_harvest"

/-- The result record of `calculateCombinedRisk`. -/
structure CombinedResult where
  weatherRiskScore : ℚ
  marketRiskScore : ℚ
  totalRisk : ℚ
  riskLevel : String
  spoilageResult : RiskResult
deriving Repr, DecidableEq

/-- `calculateCombinedRisk({supabaseCrop, harvestDate, weather})` from
`harvestOrchestrator.js`: spoilage risk normalised to `[0,1]` plus a
market-risk staircase over shelf-life usage, rounded to two decimals. -/
def calculateCombinedRisk (supabaseCrop : SupaCrop) (harvestDay : Option Int)
    (today : Int) (weather : Option Weather) : CombinedResult :=
  let spoilageResult := SpoilageRiskEngine.calculateRisk supabaseCrop harvestDay today
    (some (weather.getD { temperature := some 25, humidity := some 50, rainfall := some 0 }))
  let weatherRiskScore : ℚ := (spoilageResult.riskPercentage : ℚ) / 100
  let daysAfterHarvest := jsDaysBetween (some today) harvestDay
  let shelfLife := jsOrNum supabaseCrop.shelf_life_days 30
  let shelfUsage : ℚ := ((max 0 daysAfterHarvest : ℤ) : ℚ) / shelfLife
  let marketRiskScore : ℚ :=
    if shelfUsage > 1 then 8/10 else if shelfUsage > 7/10 then 4/10 else 1/10
  let totalRisk := weatherRiskScore + marketRiskScore
  { weatherRiskScore := round2 weatherRiskScore
    marketRiskScore := round2 marketRiskScore
    totalRisk := round2 totalRisk
    riskLevel :=
      if totalRisk < 1 then "Low"
      else if totalRisk ≤ 3/2 then "Moderate"
      else "High"
    spoilageResult := spoilageResult }

/-- `generateAdvisory(riskLevel, priceTrend)` from `harvestOrchestrator.js`. -/
def generateAdvisory (riskLevel : String) (priceTrend : String) : Advisory :=
  if riskLevel = "High" ∧ priceTrend = "falling" then
    { action := "SELL_IMMEDIATELY"
      message := "High spoilage risk and falling prices. Sell your produce immediately or move to cold storage."
      urgency := "critical" }
  else if riskLevel = "High" then
    { action := "SELL_SOON"
      message := "High spoilage risk. Consider selling within 2-3 days or improving storage conditions."
      urgency := "high" }
  else if riskLevel = "Low" ∧ priceTrend = "rising" then
    { action := "HOLD"
      message := "Low spoilage risk and prices are rising. Hold your produce for better returns."
      urgency := "low" }
  else if riskLevel = "Low" then
    { action := "HOLD"
      message := "Storage conditions are good. You can safely hold your produce."
      urgency := "low" }
  else
    { action := "MONITOR"
      message := "Monitor conditions daily. Check weather forecast and market prices before deciding."
      urgency := "medium" }

end HarvestOrchestrator

/-- Band function written from the spec's partition table for the harvest
status classifier (daysToHarvest: `>7` growing, `1..7` approaching, `−7..0`
ready, `<−7` post), used to compare the code's classifier against the spec. -/
def specHarvestBand (daysToHarvest : Int) : String :=
  if daysToHarvest > 7 then "growing"
  else if 1 ≤ daysToHarvest ∧ daysToHarvest ≤ 7 then "approaching_harvest"
  else if -7 ≤ daysToHarvest ∧ daysToHarvest ≤ 0 then "ready_for_harvest"
  else "post_harvest"

/-- Helper: the 0–100 spoilage score classification bands. -/
theorem natLevel_iff (p : ℕ) (hp : p ≤ 100) :
    ((if p ≤ 30 then "Low" else if p ≤ 60 then "Moderate" else "High") = "Low" ↔ p ≤ 30)
    ∧ ((if p ≤ 30 then "Low" else if p ≤ 60 then "Moderate" else "High") = "Moderate"
        ↔ 31 ≤ p ∧ p ≤ 60)
    ∧ ((if p ≤ 30 then "Low" else if p ≤ 60 then "Moderate" else "High") = "High"
        ↔ 61 ≤ p ∧ p ≤ 100) := by
  by_cases h1 : p ≤ 30 <;> by_cases h2 : p ≤ 60 <;> simp [h1, h2] <;> omega

/-- C2: for every crop reference, harvest date not in the future, and weather
input, `SpoilageRiskEngine.calculateRisk` returns a `riskPercentage` in
`[0,100]`; when the temperature is outside the optimal range, humidity is
above 75% with High moisture sensitivity, shelf life is exceeded and rainfall
is above 60mm all at once, the raw sum 30+25+40+10 = 105 is clamped to 100;
and `riskLevel` is Low iff the score is ≤ 30, Moderate iff it is 31–60, and
High iff it is 61–100. -/
theorem calculateRisk_clamp_and_levels (crop : SupaCrop) (harvestDay : Option Int)
    (today : Int) (weather : Option Weather)
    (h : 0 ≤ jsDaysBetween (some today) harvestDay)
    (r : RiskResult) (hr : r = SpoilageRiskEngine.calculateRisk crop harvestDay today weather) :
    (0 ≤ r.riskPercentage ∧ r.riskPercentage ≤ 100)
    ∧ (((weather.bind (·.temperature)).getD 25 < crop.optimal_storage_temp_min.getD 10
          ∨ (weather.bind (·.temperature)).getD 25 > crop.optimal_storage_temp_max.getD 30) →
        (weather.bind (·.humidity)).getD 50 > 75 →
        jsOrStr crop.moisture_sensitivity "Medium" = "High" →
        ((jsDaysBetween (some today) harvestDay : ℤ) : ℚ) > jsOrNum crop.shelf_life_days 30 →
        (weather.bind (·.rainfall)).getD 0 > 60 →
        r.riskPercentage = 100)
    ∧ (r.riskLevel = "Low" ↔ r.riskPercentage ≤ 30)
    ∧ (r.riskLevel = "Moderate" ↔ 31 ≤ r.riskPercentage ∧ r.riskPercentage ≤ 60)
    ∧ (r.riskLevel = "High" ↔ 61 ≤ r.riskPercentage ∧ r.riskPercentage ≤ 100) := by
  subst hr
  unfold SpoilageRiskEngine.calculateRisk
  dsimp only
  rw [if_neg (not_lt.mpr h)]
  dsimp only
  have hbound : clampNat
      (tempRiskScore ((weather.bind (·.temperature)).getD 25)
          (crop.optimal_storage_temp_min.getD 10) (crop.optimal_storage_temp_max.getD 30)
        + humidityRiskScore ((weather.bind (·.humidity)).getD 50)
            (jsOrStr crop.moisture_sensitivity "Medium")
        + shelfLifeRiskScore (jsDaysBetween (some today) harvestDay)
            (jsOrNum crop.shelf_life_days 30)
        + rainfallRiskScore ((weather.bind (·.rainfall)).getD 0)) 0 100 ≤ 100 :=
    min_le_right _ _
  refine ⟨⟨Nat.zero_le _, hbound⟩, ?_, ?_, ?_, ?_⟩
  · intro hT hH hS hE hR
    have e1 : tempRiskScore ((weather.bind (·.temperature)).getD 25)
        (crop.optimal_storage_temp_min.getD 10) (crop.optimal_storage_temp_max.getD 30) = 30 := by
      unfold tempRiskScore; rw [if_pos hT]
    have e2 : humidityRiskScore ((weather.bind (·.humidity)).getD 50)
        (jsOrStr crop.moisture_sensitivity "Medium") = 25 := by
      unfold humidityRiskScore; rw [if_pos hH, if_pos hS]
    have e3 : shelfLifeRiskScore (jsDaysBetween (some today) harvestDay)
        (jsOrNum crop.shelf_life_days 30) = 40 := by
      unfold shelfLifeRiskScore; rw [if_pos hE]
    have e4 : rainfallRiskScore ((weather.bind (·.rainfall)).getD 0) = 10 := by
      unfold rainfallRiskScore; rw [if_pos hR]
    rw [e1, e2, e3, e4]
    decide
  · exact (natLevel_iff _ hbound).1
  · exact (natLevel_iff _ hbound).2.1
  · exact (natLevel_iff _ hbound).2.2

/-- C2 witness: a concrete crop/weather input satisfying all hypotheses,
with all four factors firing at once; the score clamps to 100. -/
theorem calculateRisk_clamp_and_levels_witness :
    (SpoilageRiskEngine.calculateRisk
      { id := "c1", crop_name := "Tomato",
        optimal_storage_temp_min := some 10, optimal_storage_temp_max := some 30,
        moisture_sensitivity := some "High", shelf_life_days := some 20,
        storage_type := some "Cold" }
      (some 0) 40
      (some { temperature := some 35, humidity := some 80, rainfall := some 70 })).riskPercentage
    = 100 :=
  (calculateRisk_clamp_and_levels
      { id := "c1", crop_name := "Tomato",
        optimal_storage_temp_min := some 10, optimal_storage_temp_max := some 30,
        moisture_sensitivity := some "High", shelf_life_days := some 20,
        storage_type := some "Cold" }
      (some 0) 40
      (some { temperature := some 35, humidity := some 80, rainfall := some 70 })
      (by decide) _ rfl).2.1
    (by with_unfolding_all decide) (by with_unfolding_all decide)
    (by with_unfolding_all decide) (by with_unfolding_all decide)
    (by with_unfolding_all decide)

/-- C3: `detectHarvestStatus` is a pure function of the whole-day difference
`daysToHarvest = harvestDate − today`: a missing harvest date yields
`growing`, and a parseable date is classified exactly by the spec's partition
bands (edges 7, 1, 0, −7). -/
theorem detectHarvestStatus_matches_spec_band (c : Crop) (today : Int) :
    (c.harvestDate = none → HarvestOrchestrator.detectHarvestStatus c today = "growing")
    ∧ (∀ hd : Int, c.harvestDate = some (some hd) →
        HarvestOrchestrator.detectHarvestStatus c today = specHarvestBand (hd - today)) := by
  constructor
  · intro hmiss
    unfold HarvestOrchestrator.detectHarvestStatus
    rw [hmiss]
  · intro hd hhd
    unfold HarvestOrchestrator.detectHarvestStatus specHarvestBand
    rw [hhd]
    dsimp only [jsDaysBetween]
    split_ifs <;> first | rfl | omega

/-- C3 witness: a crop seven days from harvest sits on the
`approaching_harvest` edge. -/
theorem detectHarvestStatus_matches_spec_band_witness :
    HarvestOrchestrator.detectHarvestStatus { id := "x", harvestDate := some (some 10) } 3
      = specHarvestBand (10 - 3) :=
  (detectHarvestStatus_matches_spec_band { id := "x", harvestDate := some (some 10) } 3).2 10 rfl

/-- C10: a present but unparseable harvest date makes `daysBetween` return 0,
which lands in the −7..0 band, so `detectHarvestStatus` returns
`ready_for_harvest` (not `growing`) and the risk pipeline runs. -/
theorem detectHarvestStatus_unparseable_ready (c : Crop) (today : Int)
    (h : c.harvestDate = some none) :
    jsDaysBetween none (some today) = 0
    ∧ HarvestOrchestrator.detectHarvestStatus c today = "ready_for_harvest" := by
  refine ⟨rfl, ?_⟩
  unfold HarvestOrchestrator.detectHarvestStatus
  rw [h]
  rfl

/-- C10 witness: concrete crop with an unparseable harvest date string. -/
theorem detectHarvestStatus_unparseable_ready_witness :
    jsDaysBetween none (some 5) = 0
    ∧ HarvestOrchestrator.detectHarvestStatus { id := "x", harvestDate := some none } 5
        = "ready_for_harvest" :=
  detectHarvestStatus_unparseable_ready { id := "x", harvestDate := some none } 5 rfl

/-- Helper: `round2` is the identity on a rational whose hundredfold is an
integer (the orchestrator's two-decimal rounding never changes such values). -/
theorem round2_eq_self (q : ℚ) (n : ℤ) (h : q * 100 = (n : ℚ)) : round2 q = q := by
  have hq : q = (n : ℚ) / 100 := eq_div_of_mul_eq (by norm_num) h
  have hfl : ⌊(n : ℚ) + 1/2⌋ = n := by
    rw [add_comm, Int.floor_add_int, Int.floor_eq_zero_iff.mpr (by constructor <;> norm_num)]
    omega
  unfold round2 jsRound
  rw [h, hfl, hq]

/-- Helper: the total-risk classification bands of `calculateCombinedRisk`. -/
theorem ratLevel_iff (t : ℚ) :
    ((if t < 1 then "Low" else if t ≤ 3/2 then "Moderate" else "High") = "Low" ↔ t < 1)
    ∧ ((if t < 1 then "Low" else if t ≤ 3/2 then "Moderate" else "High") = "Moderate"
        ↔ 1 ≤ t ∧ t ≤ 3/2)
    ∧ ((if t < 1 then "Low" else if t ≤ 3/2 then "Moderate" else "High") = "High"
        ↔ 3/2 < t) := by
  refine ⟨?_, ?_, ?_⟩
  · by_cases h1 : t < 1
    · simp [h1]
    · rw [if_neg h1]
      by_cases h2 : t ≤ 3/2
      · rw [if_pos h2]; exact iff_of_false (by decide) h1
      · rw [if_neg h2]; exact iff_of_false (by decide) h1
  · by_cases h1 : t < 1
    · rw [if_pos h1]
      exact iff_of_false (by decide) (fun hc => (not_le.mpr h1) hc.1)
    · rw [if_neg h1]
      by_cases h2 : t ≤ 3/2
      · rw [if_pos h2]; exact iff_of_true rfl ⟨not_lt.mp h1, h2⟩
      · rw [if_neg h2]; exact iff_of_false (by decide) (fun hc => h2 hc.2)
  · by_cases h1 : t < 1
    · rw [if_pos h1]
      exact iff_of_false (by decide) (not_lt.mpr (by linarith))
    · rw [if_neg h1]
      by_cases h2 : t ≤ 3/2
      · rw [if_pos h2]; exact iff_of_false (by decide) (not_lt.mpr h2)
      · rw [if_neg h2]; exact iff_of_true rfl (not_le.mp h2)

/-- C4: `calculateCombinedRisk` computes the market risk score as the
staircase over shelf-life usage (`>1 → 0.8`, `>0.7 → 0.4`, else `0.1`), the
total risk as `riskPercentage/100` plus that score, and classifies the total
as Low iff `< 1.0`, Moderate iff in `[1.0, 1.5]`, High iff `> 1.5`. -/
theorem calculateCombinedRisk_total_and_levels (supabaseCrop : SupaCrop)
    (harvestDay : Option Int) (today : Int) (weather : Option Weather)
    (r : HarvestOrchestrator.CombinedResult)
    (hr : r = HarvestOrchestrator.calculateCombinedRisk supabaseCrop harvestDay today weather) :
    r.marketRiskScore =
      (if ((max 0 (jsDaysBetween (some today) harvestDay) : ℤ) : ℚ)
            / jsOrNum supabaseCrop.shelf_life_days 30 > 1 then 8/10
       else if ((max 0 (jsDaysBetween (some today) harvestDay) : ℤ) : ℚ)
            / jsOrNum supabaseCrop.shelf_life_days 30 > 7/10 then 4/10
       else 1/10)
    ∧ r.totalRisk = (r.spoilageResult.riskPercentage : ℚ) / 100 + r.marketRiskScore
    ∧ (r.riskLevel = "Low" ↔ r.totalRisk < 1)
    ∧ (r.riskLevel = "Moderate" ↔ 1 ≤ r.totalRisk ∧ r.totalRisk ≤ 3/2)
    ∧ (r.riskLevel = "High" ↔ 3/2 < r.totalRisk) := by
  subst hr
  unfold HarvestOrchestrator.calculateCombinedRisk
  dsimp only
  set p : ℕ := (SpoilageRiskEngine.calculateRisk supabaseCrop harvestDay today
    (some (weather.getD { temperature := some 25, humidity := some 50, rainfall := some 0 }))).riskPercentage with hp
  set u : ℚ := ((max 0 (jsDaysBetween (some today) harvestDay) : ℤ) : ℚ)
    / jsOrNum supabaseCrop.shelf_life_days 30 with hu
  by_cases hu1 : u > 1
  · rw [if_pos hu1]
    have hmr : round2 ((8:ℚ)/10) = 8/10 := round2_eq_self _ 80 (by norm_num)
    have htr : round2 ((p:ℚ)/100 + 8/10) = (p:ℚ)/100 + 8/10 :=
      round2_eq_self _ ((p:ℤ) + 80) (by push_cast; field_simp; ring)
    rw [hmr, htr]
    exact ⟨rfl, rfl, (ratLevel_iff _).1, (ratLevel_iff _).2.1, (ratLevel_iff _).2.2⟩
  · rw [if_neg hu1]
    by_cases hu2 : u > 7/10
    · rw [if_pos hu2]
      have hmr : round2 ((4:ℚ)/10) = 4/10 := round2_eq_self _ 40 (by norm_num)
      have htr : round2 ((p:ℚ)/100 + 4/10) = (p:ℚ)/100 + 4/10 :=
        round2_eq_self _ ((p:ℤ) + 40) (by push_cast; field_simp; ring)
      rw [hmr, htr]
      exact ⟨rfl, rfl, (ratLevel_iff _).1, (ratLevel_iff _).2.1, (ratLevel_iff _).2.2⟩
    · rw [if_neg hu2]
      have hmr : round2 ((1:ℚ)/10) = 1/10 := round2_eq_self _ 10 (by norm_num)
      have htr : round2 ((p:ℚ)/100 + 1/10) = (p:ℚ)/100 + 1/10 :=
        round2_eq_self _ ((p:ℤ) + 10) (by push_cast; field_simp; ring)
      rw [hmr, htr]
      exact ⟨rfl, rfl, (ratLevel_iff _).1, (ratLevel_iff _).2.1, (ratLevel_iff _).2.2⟩

/-- C4 witness: concrete instantiation; shelf usage 40/20 > 1 gives market
score 0.8, total risk 1 + 0.8 = 1.8, level High. -/
theorem calculateCombinedRisk_total_and_levels_witness :
    (HarvestOrchestrator.calculateCombinedRisk
        { id := "c1", crop_name := "Tomato",
          optimal_storage_temp_min := some 10, optimal_storage_temp_max := some 30,
          moisture_sensitivity := some "High", shelf_life_days := some 20,
          storage_type := some "Cold" }
        (some 0) 40
        (some { temperature := some 35, humidity := some 80, rainfall := some 70 })).totalRisk
      = ((HarvestOrchestrator.calculateCombinedRisk
        { id := "c1", crop_name := "Tomato",
          optimal_storage_temp_min := some 10, optimal_storage_temp_max := some 30,
          moisture_sensitivity := some "High", shelf_life_days := some 20,
          storage_type := some "Cold" }
        (some 0) 40
        (some { temperature := some 35, humidity := some 80, rainfall := some 70 })).spoilageResult.riskPercentage : ℚ) / 100
        + (HarvestOrchestrator.calculateCombinedRisk
        { id := "c1", crop_name := "Tomato",
          optimal_storage_temp_min := some 10, optimal_storage_temp_max := some 30,
          moisture_sensitivity := some "High", shelf_life_days := some 20,
          storage_type := some "Cold" }
        (some 0) 40
        (some { temperature := some 35, humidity := some 80, rainfall := some 70 })).marketRiskScore :=
  (calculateCombinedRisk_total_and_levels
      { id := "c1", crop_name := "Tomato",
        optimal_storage_temp_min := some 10, optimal_storage_temp_max := some 30,
        moisture_sensitivity := some "High", shelf_life_days := some 20,
        storage_type := some "Cold" }
      (some 0) 40
      (some { temperature := some 35, humidity := some 80, rainfall := some 70 })
      _ rfl).2.1

/-- The idempotency store (`orchestrator-last-run-<cropId>` keys in
AsyncStorage): last-processed timestamp in epoch milliseconds per crop id. -/
abbrev IdemCache := String → Option ℚ

/-- External-world responses observed by one orchestrator run: today's parsed
date, `Date.now()`, the shared weather snapshot, the reference catalog fetch
(`fetchAllCrops`), the per-id storage-enriched fetch (`fetchCropWithStorage`),
the cached prediction trend (`getCachedPrediction(...)?.trend`), the user
phone, and which `AsyncStorage.setItem` writes fail. -/
structure OrchEnv where
  today : Int
  nowMs : ℚ
  weather : Option Weather
  catalog : Except String (List SupaCrop)
  cropWithStorage : String → Except String SupaCrop
  cachedTrend : String → Except String (Option String)
  userPhone : Option String
  setItemFails : String → Bool

namespace HarvestOrchestrator

/-- The idempotency test of `processSingleCrop`: a recorded last-run
timestamp exists and `(Date.now() − lastTime) / (1000·60·60) < CACHE_TTL_HOURS`. -/
def withinTTL (env : OrchEnv) (cache : IdemCache) (id : String) : Bool :=
  match cache id with
  | some lastTime => decide ((env.nowMs - lastTime) / (1000 * 60 * 60) < 6)
  | none => false

/-- `HarvestOrchestrator.processSingleCrop(crop, weather, userPhone, force)`:
TTL skip, harvest-status detection, combined risk + advisory for
ready/post-harvest crops (reference-catalog failures swallowed by the inner
try/catch), PREPARE advisory for approaching harvest, and the final
last-run timestamp write (the only uncaught failure point). -/
def processSingleCrop (env : OrchEnv) (cache : IdemCache) (crop : Crop)
    (force : Bool) : Except String (Crop × IdemCache) :=
  if !force && withinTTL env cache crop.id then
    .ok (crop, cache)
  else
    let harvestStatus := detectHarvestStatus crop env.today
    let statusCrop : Crop := { crop with harvestStatus := some harvestStatus }
    let updatedCrop : Crop :=
      if harvestStatus = "ready_for_harvest" ∨ harvestStatus = "post_harvest" then
        match env.catalog with
        | .error _ => statusCrop
        | .ok allCrops =>
          match allCrops.find? (fun c =>
              c.crop_name.toLower == (jsOrStr crop.name "").toLower) with
          | none => statusCrop
          | some mtch =>
            let supabaseCrop :=
              match env.cropWithStorage mtch.id with
              | .ok sc => sc
              | .error _ => mtch
            let riskResult :=
              calculateCombinedRisk supabaseCrop crop.harvestDate.join env.today env.weather
            let priceTrend :=
              if jsTruthyStr env.userPhone ∧ mtch.id ≠ "" then
                match env.cachedTrend mtch.id with
                | .ok (some t) => if t = "" then "stable" else t
                | _ => "stable"
              else "stable"
            { statusCrop with
                riskLevel := some (some riskResult.riskLevel)
                riskPercentage := some riskResult.spoilageResult.riskPercentage
                totalRisk := some riskResult.totalRisk
                shelfLifeRemaining := some riskResult.spoilageResult.shelfLifeRemaining
                advisory := some (generateAdvisory riskResult.riskLevel priceTrend)
                priceTrend := some priceTrend }
      else if harvestStatus = "approaching_harvest" then
        { statusCrop with
            riskLevel := some none
            advisory := some
              { action := "PREPARE"
                message := "Harvest approaching in "
                  ++ toString (jsDaysBetween crop.harvestDate.join (some env.today))
                  ++ " days. Prepare storage."
                urgency := "info" } }
      else statusCrop
    if env.setItemFails crop.id then .error "AsyncStorage.setItem failed"
    else .ok (updatedCrop, fun k => if k = crop.id then some env.nowMs else cache k)

/-- The `for (const crop of crops)` loop of `processAllCrops`: each crop is
processed with the current idempotency cache; a per-crop failure is caught
and the original crop pushed instead. -/
def processCropsLoop (env : OrchEnv) (force : Bool) :
    List Crop → IdemCache → List Crop × IdemCache
  | [], cache => ([], cache)
  | c :: rest, cache =>
    match processSingleCrop env cache c force with
    | .ok res =>
      let r := processCropsLoop env force rest res.2
      (res.1 :: r.1, r.2)
    | .error _ =>
      let r := processCropsLoop env force rest cache
      (c :: r.1, r.2)

/-- `HarvestOrchestrator.processAllCrops(force)` restricted to its per-crop
loop; the returned crop list is what is persisted back to `user-crops` and
returned to the caller. -/
def processAllCrops (env : OrchEnv) (crops : List Crop) (force : Bool)
    (cache : IdemCache) : List Crop × IdemCache :=
  processCropsLoop env force crops cache

end HarvestOrchestrator

/-- C5: unless `force` is set, processing a crop whose recorded
last-processed timestamp is within the 6-hour TTL window returns the crop
object unchanged — same output object, no re-scored risk, no field mutated —
and leaves the idempotency cache untouched, so a second call within the TTL
window after a first processing run reproduces its input exactly. -/
theorem processSingleCrop_ttl_skip (env : OrchEnv) (cache : IdemCache) (crop : Crop)
    (t : ℚ) (hc : cache crop.id = some t)
    (httl : (env.nowMs - t) / (1000 * 60 * 60) < 6) :
    HarvestOrchestrator.processSingleCrop env cache crop false = .ok (crop, cache) := by
  have hw : HarvestOrchestrator.withinTTL env cache crop.id = true := by
    unfold HarvestOrchestrator.withinTTL
    rw [hc]
    exact decide_eq_true httl
  unfold HarvestOrchestrator.processSingleCrop
  rw [hw]
  rfl

/-- C5 witness: a crop whose last run was 1000ms before now is skipped. -/
theorem processSingleCrop_ttl_skip_witness :
    HarvestOrchestrator.processSingleCrop
      { today := 0, nowMs := 1000, weather := none, catalog := Except.error "offline",
        cropWithStorage := fun _ => Except.error "offline",
        cachedTrend := fun _ => Except.ok none,
        userPhone := none, setItemFails := fun _ => false }
      (fun k => if k = "x" then some 0 else none) { id := "x" } false
      = .ok ({ id := "x" }, fun k => if k = "x" then some 0 else none) :=
  processSingleCrop_ttl_skip
    { today := 0, nowMs := 1000, weather := none, catalog := Except.error "offline",
      cropWithStorage := fun _ => Except.error "offline",
      cachedTrend := fun _ => Except.ok none,
      userPhone := none, setItemFails := fun _ => false }
    (fun k => if k = "x" then some 0 else none) { id := "x" } 0
    (by rfl) (by with_unfolding_all decide)

/-- Helper: the per-crop loop distributes over list append, threading the
idempotency cache through. -/
theorem processCropsLoop_append (env : OrchEnv) (force : Bool) (l1 l2 : List Crop)
    (cache : IdemCache) :
    HarvestOrchestrator.processCropsLoop env force (l1 ++ l2) cache
      = ((HarvestOrchestrator.processCropsLoop env force l1 cache).1
          ++ (HarvestOrchestrator.processCropsLoop env force l2
                (HarvestOrchestrator.processCropsLoop env force l1 cache).2).1,
         (HarvestOrchestrator.processCropsLoop env force l2
                (HarvestOrchestrator.processCropsLoop env force l1 cache).2).2) := by
  induction l1 generalizing cache with
  | nil => rfl
  | cons a tail ih =>
    show HarvestOrchestrator.processCropsLoop env force (a :: (tail ++ l2)) cache = _
    simp only [HarvestOrchestrator.processCropsLoop]
    cases hps : HarvestOrchestrator.processSingleCrop env cache a force with
    | ok res =>
      dsimp only
      rw [ih]
      simp [List.cons_append]
    | error e =>
      dsimp only
      rw [ih]
      simp [List.cons_append]

/-- C9: in `processAllCrops`, a crop whose per-crop processing raises an
exception is placed in the returned (and persisted) portfolio in its
pre-processing form, unchanged, at its original position, and the remaining
crops of the batch are still processed — no single crop's failure aborts the
batch. -/
theorem processAllCrops_isolates_failure (env : OrchEnv) (force : Bool)
    (pre post : List Crop) (c : Crop) (cache : IdemCache) (e : String)
    (hfail : HarvestOrchestrator.processSingleCrop env
        (HarvestOrchestrator.processCropsLoop env force pre cache).2 c force
        = .error e) :
    (HarvestOrchestrator.processAllCrops env (pre ++ c :: post) force cache).1
      = (HarvestOrchestrator.processCropsLoop env force pre cache).1
        ++ c :: (HarvestOrchestrator.processCropsLoop env force post
              (HarvestOrchestrator.processCropsLoop env force pre cache).2).1 := by
  unfold HarvestOrchestrator.processAllCrops
  rw [processCropsLoop_append]
  dsimp only
  congr 1
  simp only [HarvestOrchestrator.processCropsLoop, hfail]

/-- C9 witness: the middle crop's last-run write fails, so it is returned
unchanged while the first and third crops are processed. -/
theorem processAllCrops_isolates_failure_witness :
    (HarvestOrchestrator.processAllCrops
        { today := 0, nowMs := 0, weather := none, catalog := Except.error "offline",
          cropWithStorage := fun _ => Except.error "offline",
          cachedTrend := fun _ => Except.ok none,
          userPhone := none, setItemFails := fun k => k == "b" }
        ([{ id := "a" }] ++ { id := "b" } :: [{ id := "c" }]) false (fun _ => none)).1
      = (HarvestOrchestrator.processCropsLoop
          { today := 0, nowMs := 0, weather := none, catalog := Except.error "offline",
            cropWithStorage := fun _ => Except.error "offline",
            cachedTrend := fun _ => Except.ok none,
            userPhone := none, setItemFails := fun k => k == "b" }
          false [{ id := "a" }] (fun _ => none)).1
        ++ { id := "b" } :: (HarvestOrchestrator.processCropsLoop
          { today := 0, nowMs := 0, weather := none, catalog := Except.error "offline",
            cropWithStorage := fun _ => Except.error "offline",
            cachedTrend := fun _ => Except.ok none,
            userPhone := none, setItemFails := fun k => k == "b" }
          false [{ id := "c" }]
          (HarvestOrchestrator.processCropsLoop
            { today := 0, nowMs := 0, weather := none, catalog := Except.error "offline",
              cropWithStorage := fun _ => Except.error "offline",
              cachedTrend := fun _ => Except.ok none,
              userPhone := none, setItemFails := fun k => k == "b" }
            false [{ id := "a" }] (fun _ => none)).2).1 :=
  processAllCrops_isolates_failure
    { today := 0, nowMs := 0, weather := none, catalog := Except.error "offline",
      cropWithStorage := fun _ => Except.error "offline",
      cachedTrend := fun _ => Except.ok none,
      userPhone := none, setItemFails := fun k => k == "b" }
    false [{ id := "a" }] [{ id := "c" }] { id := "b" } (fun _ => none)
    "AsyncStorage.setItem failed" (by rfl)

/-- A parsed upstream response as seen by one fetch attempt of
`predictPrice`: timer won the race, non-OK HTTP status, OK status with an
unparseable body, or OK status with a parsed JSON body.  In `okBody`,
`predicted_price` distinguishes null/undefined (`none`), present but
non-numeric, i.e. `isNaN` (`some none`), and numeric (`some (some q)`). -/
inductive ApiResp where
  | timeout
  | httpError (status : ℕ) (body : String)
  | badJson
  | okBody (predicted_price : Option (Option ℚ)) (confidence : Option ℚ)
      (trend : Option String) (crop_id : Option String) (target_date : Option String)

/-- The validated result object returned by `predictPrice`. -/
structure PredResult where
  crop_id : String
  target_date : String
  predicted_price : ℚ
  confidence : ℚ
  trend : String
deriving Repr, DecidableEq

/-- Substring occurrence over character lists (JS `String.prototype.includes`). -/
def charsContain (needle : List Char) : List Char → Bool
  | [] => needle.isEmpty
  | c :: rest => needle.isPrefixOf (c :: rest) || charsContain needle rest

/-- JS `hay.includes(needle)`. -/
def strContains (hay needle : String) : Bool := charsContain needle.data hay.data

/-- The non-retry filter in `predictPrice`'s catch block:
`err.message.includes('Missing') || err.message.includes('must be')`. -/
def nonRetryableMsg (msg : String) : Bool :=
  strContains msg "Missing" || strContains msg "must be"

namespace PricePredictionEngine

/-- `MAX_RETRIES` from `pricePredictionEngine.js`. -/
def MAX_RETRIES : ℕ := 2

/-- One attempt of `predictPrice`'s try block: a timeout or non-OK status or
invalid JSON or missing/non-numeric `predicted_price` raises the
corresponding error message; otherwise the result object is built (`crop_id`
and `target_date` defaulted from the arguments, `confidence` defaulted to 0,
`trend` coerced into the set {rising, falling, stable}). -/
def tryOnce (resp : ApiResp) (cropId targetDate : String) : Except String PredResult :=
  match resp with
  | .timeout => .error "Request timeout — server took too long"
  | .httpError status body => .error ("API Error (" ++ toString status ++ "): " ++ body)
  | .badJson => .error "Invalid JSON response from prediction API"
  | .okBody price conf trend cid td =>
    match price with
    | some (some p) =>
      .ok { crop_id := jsOrStr cid cropId
            target_date := jsOrStr td targetDate
            predicted_price := p
            confidence := conf.getD 0
            trend :=
              match trend with
              | some t => if t = "rising" ∨ t = "falling" ∨ t = "stable" then t else "stable"
              | none => "stable" }
    | _ => .error "Missing or invalid predicted_price in response"

/-- The retry loop `for (let attempt = 1; attempt <= MAX_RETRIES; attempt++)`
of `predictPrice`, with the fuel argument counting remaining permitted
attempts: on an error whose message matches the non-retry filter the error is
rethrown at once; otherwise the next attempt runs (after the backoff sleep);
when attempts are exhausted the last error is thrown (or the defensive
generic message).  The second component is the number of attempts made. -/
def attemptLoop (responses : ℕ → ApiResp) (cropId targetDate : String) :
    ℕ → ℕ → Option String → Except String PredResult × ℕ
  | 0, attempt, lastError =>
    (.error (lastError.getD "Price prediction failed after retries"), attempt - 1)
  | fuel + 1, attempt, _lastError =>
    match tryOnce (responses attempt) cropId targetDate with
    | .ok r => (.ok r, attempt)
    | .error msg =>
      if nonRetryableMsg msg then (.error msg, attempt)
      else attemptLoop responses cropId targetDate fuel (attempt + 1) (some msg)

/-- Environment of one `predictPrice` call: today's midnight-aligned date,
the date parser (`new Date(s)`, `none` for `NaN`), and the server's response
for each attempt number. -/
structure PredEnv where
  todayDay : Int
  parseDay : String → Option Int
  responses : ℕ → ApiResp

/-- `predictPrice(cropId, targetDate)` from `pricePredictionEngine.js`:
missing-argument and past-date validation throw before any attempt (an
unparseable target date passes, since `NaN < today` is false), then the
retry loop runs.  The second component counts attempts made (0 = no network
call). -/
def predictPrice (env : PredEnv) (cropId targetDate : Option String) :
    Except String PredResult × ℕ :=
  if !jsTruthyStr cropId then (.error "Missing crop ID", 0)
  else if !jsTruthyStr targetDate then (.error "Missing target date", 0)
  else
    let cid := cropId.getD ""
    let td := targetDate.getD ""
    if (match env.parseDay td with
        | some d => decide (d < env.todayDay)
        | none => false) then
      (.error "Target date must be today or in the future", 0)
    else attemptLoop env.responses cid td MAX_RETRIES 1 none

end PricePredictionEngine

/-- C1 counterexample: the claim says a response with a missing
`predicted_price` raises a retryable error, so a second attempt occurs
before the call fails.  On the code, the error message is "Missing or
invalid predicted_price in response", which matches the catch block's
non-retry filter (`includes('Missing')`): the call fails after exactly one
attempt, even though the configured second attempt would have succeeded. -/
theorem predictPrice_missing_price_not_retried_cex :
    PricePredictionEngine.predictPrice
        { todayDay := 0, parseDay := fun _ => some 5,
          responses := fun n =>
            if n = 1 then ApiResp.okBody none none none none none
            else ApiResp.okBody (some (some 42)) none (some "rising") none none }
        (some "crop-1") (some "2099-01-01")
      = (.error "Missing or invalid predicted_price in response", 1)
    ∧ PricePredictionEngine.tryOnce
        (ApiResp.okBody (some (some 42)) none (some "rising") none none)
        "crop-1" "2099-01-01"
      = .ok { crop_id := "crop-1", target_date := "2099-01-01",
              predicted_price := 42, confidence := 0, trend := "rising" }
    ∧ nonRetryableMsg "Missing or invalid predicted_price in response" = true := by
  refine ⟨?_, ?_, ?_⟩ <;> rfl

/-- C1 (amended): argument-validation failures (missing cropId, missing
targetDate, targetDate before today) are thrown with zero attempts; a
response with a missing or non-numeric `predicted_price` raises an error
that the non-retry filter catches (its message contains "Missing"), so the
call fails on the first attempt with no retry; an error whose message does
not match the filter (non-2xx status, unparseable JSON, timeout) is retried:
a second attempt occurs and decides the call's outcome. -/
theorem predictPrice_error_policy (env : PricePredictionEngine.PredEnv)
    (cropId targetDate : Option String) :
    (jsTruthyStr cropId = false →
      PricePredictionEngine.predictPrice env cropId targetDate = (.error "Missing crop ID", 0))
    ∧ (jsTruthyStr cropId = true → jsTruthyStr targetDate = false →
      PricePredictionEngine.predictPrice env cropId targetDate = (.error "Missing target date", 0))
    ∧ (∀ d : Int, jsTruthyStr cropId = true → jsTruthyStr targetDate = true →
      env.parseDay (targetDate.getD "") = some d → d < env.todayDay →
      PricePredictionEngine.predictPrice env cropId targetDate
        = (.error "Target date must be today or in the future", 0))
    ∧ (∀ pp conf tr c t, jsTruthyStr cropId = true → jsTruthyStr targetDate = true →
      (match env.parseDay (targetDate.getD "") with
        | some d => decide (d < env.todayDay)
        | none => false) = false →
      env.responses 1 = ApiResp.okBody pp conf tr c t →
      (pp = none ∨ pp = some none) →
      PricePredictionEngine.predictPrice env cropId targetDate
        = (.error "Missing or invalid predicted_price in response", 1))
    ∧ (∀ m : String, jsTruthyStr cropId = true → jsTruthyStr targetDate = true →
      (match env.parseDay (targetDate.getD "") with
        | some d => decide (d < env.todayDay)
        | none => false) = false →
      PricePredictionEngine.tryOnce (env.responses 1) (cropId.getD "") (targetDate.getD "")
        = .error m →
      nonRetryableMsg m = false →
      PricePredictionEngine.predictPrice env cropId targetDate
        = (match PricePredictionEngine.tryOnce (env.responses 2)
              (cropId.getD "") (targetDate.getD "") with
           | .ok r => (.ok r, 2)
           | .error m2 => (.error m2, 2))) := by
  have hstep : ∀ (responses : ℕ → ApiResp) (cid td : String) (fuel attempt : ℕ)
      (le : Option String),
      PricePredictionEngine.attemptLoop responses cid td (fuel + 1) attempt le
        = (match PricePredictionEngine.tryOnce (responses attempt) cid td with
           | .ok r => (.ok r, attempt)
           | .error msg =>
             if nonRetryableMsg msg then (.error msg, attempt)
             else PricePredictionEngine.attemptLoop responses cid td fuel (attempt + 1)
                    (some msg)) :=
    fun _ _ _ _ _ _ => rfl
  refine ⟨?_, ?_, ?_, ?_, ?_⟩
  · intro h
    unfold PricePredictionEngine.predictPrice
    rw [h]
    rfl
  · intro h1 h2
    unfold PricePredictionEngine.predictPrice
    rw [h1, h2]
    rfl
  · intro d h1 h2 hp hlt
    unfold PricePredictionEngine.predictPrice
    rw [h1, h2]
    dsimp only
    rw [hp]
    dsimp only
    rw [decide_eq_true hlt]
    rfl
  · intro pp conf tr c t h1 h2 hpast hresp hpp
    unfold PricePredictionEngine.predictPrice
    rw [h1, h2]
    dsimp only
    rw [hpast]
    rw [show PricePredictionEngine.MAX_RETRIES = 1 + 1 from rfl, hstep, hresp]
    unfold PricePredictionEngine.tryOnce
    rcases hpp with rfl | rfl <;> rfl
  · intro m h1 h2 hpast htry hretry
    unfold PricePredictionEngine.predictPrice
    rw [h1, h2]
    dsimp only
    rw [hpast]
    rw [show PricePredictionEngine.MAX_RETRIES = 1 + 1 from rfl, hstep, htry]
    dsimp only
    rw [hretry]
    rw [if_neg (by simp)]
    rw [hstep]
    have h12 : (1 + 1 : ℕ) = 2 := rfl
    rw [h12]
    cases htry2 : PricePredictionEngine.tryOnce (env.responses 2)
        (cropId.getD "") (targetDate.getD "") with
    | ok r => rfl
    | error m2 =>
      dsimp only
      by_cases hm2 : nonRetryableMsg m2 = true
      · rw [hm2]
        rfl
      · rw [Bool.not_eq_true] at hm2
        rw [hm2]
        rfl

/-- C1 witness: a missing crop id fails with zero attempts; a 503 response
on the first attempt is retried and the second attempt's success decides
the outcome. -/
theorem predictPrice_error_policy_witness :
    PricePredictionEngine.predictPrice
        { todayDay := 0, parseDay := fun _ => some 5,
          responses := fun _ => ApiResp.badJson }
        none (some "2099-01-01")
      = (.error "Missing crop ID", 0)
    ∧ PricePredictionEngine.predictPrice
        { todayDay := 0, parseDay := fun _ => some 5,
          responses := fun n =>
            if n = 1 then ApiResp.httpError 503 "Service Unavailable"
            else ApiResp.okBody (some (some 7)) none none none none }
        (some "crop-1") (some "2099-01-01")
      = (match PricePredictionEngine.tryOnce
            (ApiResp.okBody (some (some 7)) none none none none) "crop-1" "2099-01-01" with
         | .ok r => (.ok r, 2)
         | .error m2 => (.error m2, 2)) :=
  ⟨(predictPrice_error_policy
      { todayDay := 0, parseDay := fun _ => some 5,
        responses := fun _ => ApiResp.badJson }
      none (some "2099-01-01")).1 rfl,
   (predictPrice_error_policy
      { todayDay := 0, parseDay := fun _ => some 5,
        responses := fun n =>
          if n = 1 then ApiResp.httpError 503 "Service Unavailable"
          else ApiResp.okBody (some (some 7)) none none none none }
      (some "crop-1") (some "2099-01-01")).2.2.2.2
     "API Error (503): Service Unavailable" rfl rfl rfl (by rfl) (by rfl)⟩

/-- A master catalog crop row as consumed by `cropFilterEngine.js`.
`min_temperature`/`max_temperature` are the crop's optimal range columns;
array-valued columns are optional to model the `Array.isArray` guards. -/
structure CatalogCrop where
  id : String
  crop_name : String
  suitable_soil_types : Option (List String) := none
  ideal_sowing_months : Option (List Int) := none
  min_temperature : ℚ := 0
  max_temperature : ℚ := 0
  region_tags : Option (List String) := none
  min_area_required : Option ℚ := none
deriving Repr, DecidableEq

/-- The raw farm object passed to `filterCropsForFarm`; `none` models a
missing or wrongly-typed field. -/
structure FarmData where
  soil_type : Option String := none
  area_in_hectares : Option ℚ := none
  temperature : Option ℚ := none
  current_month : Option Int := none
  region : Option String := none
deriving Repr, DecidableEq

/-- The normalised farm context built at the top of `filterCropsForFarm`. -/
structure Farm where
  soil_type : String
  area_in_hectares : ℚ
  temperature : Option ℚ
  current_month : Int
  region : String
deriving Repr, DecidableEq

/-- The farm normalisation at the top of `filterCropsForFarm`;
`defaultMonth` stands for `new Date().getMonth() + 1`. -/
def normalizeFarm (farmData : FarmData) (defaultMonth : Int) : Farm :=
  { soil_type := jsOrStr farmData.soil_type ""
    area_in_hectares := farmData.area_in_hectares.getD 0
    temperature := farmData.temperature
    current_month := farmData.current_month.getD defaultMonth
    region := jsOrStr farmData.region "" }

/-- A scored crop `{ ...crop, _score, _soilMatch, _seasonMatch }`. -/
structure ScoredCrop where
  crop : CatalogCrop
  score : ℚ
  soilMatch : Bool
  seasonMatch : Bool
deriving Repr, DecidableEq

namespace CropFilterEngine

/-- `scoreCrop(crop, farm)`: soil exact match 40, season match 30,
temperature closeness up to 20, region tag match 10. -/
def scoreCrop (crop : CatalogCrop) (farm : Farm) : ℚ × Bool × Bool :=
  let soilMatch :=
    match crop.suitable_soil_types with
    | some soils =>
      if farm.soil_type ≠ "" then
        soils.any (fun s => s.trim.toLower == farm.soil_type.trim.toLower)
      else false
    | none => false
  let soilScore : ℚ := if soilMatch then 40 else 0
  let seasonMatch :=
    match crop.ideal_sowing_months with
    | some months =>
      if farm.current_month ≠ 0 then months.contains farm.current_month else false
    | none => false
  let seasonScore : ℚ := if seasonMatch then 30 else 0
  let tempScore : ℚ :=
    match farm.temperature with
    | some temp =>
      let mid := (crop.min_temperature + crop.max_temperature) / 2
      let range := jsOrNum (some (crop.max_temperature - crop.min_temperature)) 1
      let dist := |temp - mid| / (range / 2)
      max 0 (20 * (1 - dist))
    | none => 0
  let regionScore : ℚ :=
    match crop.region_tags with
    | some tags =>
      if farm.region ≠ "" then
        if tags.any (fun r => r.trim.toLower == farm.region.trim.toLower) then 10 else 0
      else 0
    | none => 0
  (soilScore + seasonScore + tempScore + regionScore, soilMatch, seasonMatch)

/-- The hard-constraint predicate inside `applyStrictFilter`'s
`crops.filter(...)`: the three early `return false` checks of the source
(area, temperature window, season). -/
def strictPass (crop : CatalogCrop) (farm : Farm) : Bool :=
  !(jsTruthyNum crop.min_area_required
      && decide (farm.area_in_hectares < crop.min_area_required.getD 0))
  && !(match farm.temperature with
      | some temp =>
        decide (temp < crop.min_temperature) || decide (temp > crop.max_temperature)
      | none => false)
  && !(decide (farm.current_month ≠ 0)
      && (match crop.ideal_sowing_months with
          | some months => !(months.contains farm.current_month)
          | none => false))

/-- The crops surviving the strict filter's hard constraints (the
`crops.filter(...)` stage of `applyStrictFilter`). -/
def strictCandidates (crops : List CatalogCrop) (farm : Farm) : List CatalogCrop :=
  crops.filter (fun crop => strictPass crop farm)

/-- Insertion step of the score-descending sort modelling
`.sort((a, b) => b._score - a._score)`. -/
def insertByScoreDesc (x : ScoredCrop) : List ScoredCrop → List ScoredCrop
  | [] => [x]
  | y :: ys => if x.score > y.score then x :: y :: ys else y :: insertByScoreDesc x ys

/-- Score-descending (stable) sort modelling `.sort((a, b) => b._score - a._score)`. -/
def sortByScoreDesc : List ScoredCrop → List ScoredCrop
  | [] => []
  | x :: xs => insertByScoreDesc x (sortByScoreDesc xs)

/-- `applyStrictFilter(crops, farm)`: filter by hard constraints, score,
sort descending, take the top 5. -/
def applyStrictFilter (crops : List CatalogCrop) (farm : Farm) : List ScoredCrop :=
  (sortByScoreDesc ((strictCandidates crops farm).map (fun crop =>
      let s := scoreCrop crop farm
      { crop := crop, score := s.1, soilMatch := s.2.1, seasonMatch := s.2.2 }))).take 5

/-- `applyFallbackFilter(crops, farm)`: keep only the season (month)
constraint — or everything when a crop has no month data — score, sort
descending, take the top 3. -/
def applyFallbackFilter (crops : List CatalogCrop) (farm : Farm) : List ScoredCrop :=
  (sortByScoreDesc ((crops.filter (fun crop =>
      match crop.ideal_sowing_months with
      | some months =>
        if farm.current_month ≠ 0 then months.contains farm.current_month else true
      | none => true)).map (fun crop =>
      let s := scoreCrop crop farm
      { crop := crop, score := s.1, soilMatch := s.2.1, seasonMatch := s.2.2 }))).take 3

/-- `filterCropsForFarm(allCrops, farmData)`: empty/missing catalog short
circuit, then strict filter, then fallback when the strict result is empty;
the Bool is the `usedFallback` flag. -/
def filterCropsForFarm (allCrops : Option (List CatalogCrop)) (farmData : FarmData)
    (defaultMonth : Int) : List ScoredCrop × Bool :=
  match allCrops with
  | none => ([], false)
  | some crops =>
    if crops.length = 0 then ([], false)
    else
      let farm := normalizeFarm farmData defaultMonth
      let strict := applyStrictFilter crops farm
      if strict.length > 0 then (strict, false)
      else (applyFallbackFilter crops farm, true)

end CropFilterEngine

/-- The result date of `computeSowingDate`, kept symbolic: today's date, or
the first day of a month in a year (`new Date(year, month − 1, 1)`). -/
inductive SowDate where
  | todayDate
  | firstOf (year : Int) (month : Int)
deriving Repr, DecidableEq

/-- Insertion step of the ascending numeric sort modelling `.sort((a, b) => a - b)`. -/
def insertIntAsc (x : Int) : List Int → List Int
  | [] => [x]
  | y :: ys => if x ≤ y then x :: y :: ys else y :: insertIntAsc x ys

/-- Ascending numeric sort modelling `.sort((a, b) => a - b)`. -/
def sortIntAsc : List Int → List Int
  | [] => []
  | x :: xs => insertIntAsc x (sortIntAsc xs)

namespace CropFilterEngine

/-- `computeSowingDate(crop, currentMonth)` from `cropFilterEngine.js`:
today when the month list is missing/empty or contains the current month;
otherwise the first day of the minimal wrap-normalised future ideal month,
in next year when the normalised month exceeds 12. -/
def computeSowingDate (crop : CatalogCrop) (currentMonth : Int) (currentYear : Int) :
    SowDate :=
  match crop.ideal_sowing_months with
  | none => .todayDate
  | some months =>
    if months.isEmpty then .todayDate
    else if months.contains currentMonth then .todayDate
    else
      let futureMths :=
        sortIntAsc (months.map (fun m => if m < currentMonth then m + 12 else m))
      match futureMths with
      | [] => .todayDate
      | nextNormMonth :: _ =>
        let actualMonth := (nextNormMonth - 1) % 12 + 1
        let yearOffset : Int := if nextNormMonth > 12 then 1 else 0
        .firstOf (currentYear + yearOffset) actualMonth

end CropFilterEngine

/-- C6 counterexample: for an empty input catalog the strict filter's result
set is empty, yet `filterCropsForFarm` returns `usedFallback = false` — the
claimed "if and only if" (explicitly including the empty-catalog case)
fails on the code. -/
theorem filterCropsForFarm_fallback_iff_cex :
    ¬ (((CropFilterEngine.filterCropsForFarm (some []) {} 5).2 = true)
        ↔ CropFilterEngine.applyStrictFilter [] (normalizeFarm {} 5) = []) :=
  fun h => absurd (h.mpr rfl) (by decide)

/-- C6 (amended): for every non-empty crop catalog and farm context,
`filterCropsForFarm` returns `usedFallback = true` if and only if the strict
filter applied to that catalog and the normalised context yields an empty
result set; for an empty (or missing) catalog the function short-circuits
to `usedFallback = false` with an empty crop list. -/
theorem filterCropsForFarm_fallback_iff (crops : List CatalogCrop) (farmData : FarmData)
    (defaultMonth : Int) (hne : crops ≠ []) :
    ((CropFilterEngine.filterCropsForFarm (some crops) farmData defaultMonth).2 = true
      ↔ CropFilterEngine.applyStrictFilter crops (normalizeFarm farmData defaultMonth) = []) := by
  simp only [CropFilterEngine.filterCropsForFarm]
  rw [if_neg (by simpa using hne)]
  by_cases hs : (CropFilterEngine.applyStrictFilter crops
      (normalizeFarm farmData defaultMonth)).length > 0
  · rw [if_pos hs]
    exact iff_of_false (by simp) (by
      intro hnil
      rw [hnil] at hs
      simp at hs)
  · rw [if_neg hs]
    exact iff_of_true rfl (List.length_eq_zero.mp (by omega))

/-- C6 witness: a one-crop catalog whose crop fails the strict filter (its
temperature window excludes the farm temperature), so the fallback is used. -/
theorem filterCropsForFarm_fallback_iff_witness :
    ((CropFilterEngine.filterCropsForFarm
        (some [{ id := "k", crop_name := "Kale", min_temperature := 10,
                 max_temperature := 20 }])
        { temperature := some 30 } 5).2 = true
      ↔ CropFilterEngine.applyStrictFilter
          [{ id := "k", crop_name := "Kale", min_temperature := 10,
             max_temperature := 20 }]
          (normalizeFarm { temperature := some 30 } 5) = []) :=
  filterCropsForFarm_fallback_iff
    [{ id := "k", crop_name := "Kale", min_temperature := 10, max_temperature := 20 }]
    { temperature := some 30 } 5 (List.cons_ne_nil _ _)

/-- Hard-constraint predicate written from C7's wording: area at least the
minimum required when one is set, temperature within the optimal range when
known, and the month constraint applying only when the ideal-sowing-months
list is present AND non-empty (a present-but-empty list does not exclude). -/
def claimStrictRetain (crop : CatalogCrop) (farm : Farm) : Bool :=
  !(jsTruthyNum crop.min_area_required
      && decide (farm.area_in_hectares < crop.min_area_required.getD 0))
  && !(match farm.temperature with
      | some temp =>
        decide (temp < crop.min_temperature) || decide (temp > crop.max_temperature)
      | none => false)
  && !(decide (farm.current_month ≠ 0)
      && (match crop.ideal_sowing_months with
          | some months => !(months.isEmpty) && !(months.contains farm.current_month)
          | none => false))

/-- C7 counterexample: a crop whose ideal-sowing-months list is present but
empty satisfies all hard constraints as the claim words them, yet the
strict filter excludes it (`[].includes(month)` is false), leaving an empty
result set. -/
theorem strictPass_empty_months_cex :
    claimStrictRetain
        { id := "k", crop_name := "Kale", ideal_sowing_months := some [],
          min_temperature := 0, max_temperature := 50 }
        { soil_type := "", area_in_hectares := 1, temperature := some 20,
          current_month := 5, region := "" } = true
    ∧ CropFilterEngine.strictPass
        { id := "k", crop_name := "Kale", ideal_sowing_months := some [],
          min_temperature := 0, max_temperature := 50 }
        { soil_type := "", area_in_hectares := 1, temperature := some 20,
          current_month := 5, region := "" } = false
    ∧ CropFilterEngine.applyStrictFilter
        [{ id := "k", crop_name := "Kale", ideal_sowing_months := some [],
           min_temperature := 0, max_temperature := 50 }]
        { soil_type := "", area_in_hectares := 1, temperature := some 20,
          current_month := 5, region := "" } = [] := by
  refine ⟨?_, ?_, ?_⟩ <;> with_unfolding_all rfl

/-- Helper: `List.contains` on `Int` agrees with membership. -/
theorem intContains_iff (l : List Int) (x : Int) : l.contains x = true ↔ x ∈ l := by
  rw [List.contains_iff_exists_mem_beq]
  simp

/-- C7 (amended): the strict filter's filtering stage (`strictCandidates`)
retains exactly the crops satisfying all hard constraints: farm area at
least the crop's minimum required area when one is (truthily) set, farm
temperature within the crop's [min,max] range when the temperature is
known, and — given a set current month — whenever the ideal-sowing-months
list is present, the current month contained in that list; in particular a
crop whose list is present but empty IS excluded by the month constraint. -/
theorem strictCandidates_retains_iff (crops : List CatalogCrop) (farm : Farm)
    (crop : CatalogCrop) (hm : farm.current_month ≠ 0) :
    crop ∈ CropFilterEngine.strictCandidates crops farm
      ↔ crop ∈ crops
        ∧ ¬(jsTruthyNum crop.min_area_required = true
            ∧ farm.area_in_hectares < crop.min_area_required.getD 0)
        ∧ (∀ t : ℚ, farm.temperature = some t →
            crop.min_temperature ≤ t ∧ t ≤ crop.max_temperature)
        ∧ (∀ months : List Int, crop.ideal_sowing_months = some months →
            farm.current_month ∈ months) := by
  have hiff : CropFilterEngine.strictPass crop farm = true ↔
      (¬(jsTruthyNum crop.min_area_required = true
          ∧ farm.area_in_hectares < crop.min_area_required.getD 0)
       ∧ (∀ t : ℚ, farm.temperature = some t →
           crop.min_temperature ≤ t ∧ t ≤ crop.max_temperature)
       ∧ (∀ months : List Int, crop.ideal_sowing_months = some months →
           farm.current_month ∈ months)) := by
    unfold CropFilterEngine.strictPass
    rw [Bool.and_eq_true, Bool.and_eq_true]
    constructor
    · rintro ⟨⟨hA, hB⟩, hC⟩
      refine ⟨?_, ?_, ?_⟩
      · rintro ⟨hon, hlt⟩
        simp [hon, hlt] at hA
      · intro t hft
        rw [hft] at hB
        simp only [Bool.not_eq_true', Bool.or_eq_false_iff,
          decide_eq_false_iff_not] at hB
        exact ⟨not_lt.mp hB.1, not_lt.mp hB.2⟩
      · intro months him
        rw [him] at hC
        simpa [hm] using hC
    · rintro ⟨h1, h2, h3⟩
      refine ⟨⟨?_, ?_⟩, ?_⟩
      · cases hj : jsTruthyNum crop.min_area_required with
        | false => simp [hj]
        | true =>
          have hge : ¬ farm.area_in_hectares < crop.min_area_required.getD 0 :=
            fun hlt => h1 ⟨hj, hlt⟩
          simp [hj, hge]
      · cases hft : farm.temperature with
        | none => simp
        | some t =>
          obtain ⟨hl, hr⟩ := h2 t hft
          simp only [Bool.not_eq_true', Bool.or_eq_false_iff,
            decide_eq_false_iff_not]
          exact ⟨not_lt.mpr hl, not_lt.mpr hr⟩
      · cases him : crop.ideal_sowing_months with
        | none => simp
        | some months =>
          have hmem := h3 months him
          simp [hmem]
  unfold CropFilterEngine.strictCandidates
  rw [List.mem_filter, hiff]

/-- C7 witness: a crop matching every hard constraint is retained by the
filtering stage. -/
theorem strictCandidates_retains_iff_witness :
    ({ id := "w", crop_name := "Wheat", ideal_sowing_months := some [5],
       min_temperature := 0, max_temperature := 50 } : CatalogCrop)
        ∈ CropFilterEngine.strictCandidates
            [{ id := "w", crop_name := "Wheat", ideal_sowing_months := some [5],
               min_temperature := 0, max_temperature := 50 }]
            { soil_type := "", area_in_hectares := 1, temperature := some 20,
              current_month := 5, region := "" } :=
  (strictCandidates_retains_iff
    [{ id := "w", crop_name := "Wheat", ideal_sowing_months := some [5],
       min_temperature := 0, max_temperature := 50 }]
    { soil_type := "", area_in_hectares := 1, temperature := some 20,
      current_month := 5, region := "" }
    { id := "w", crop_name := "Wheat", ideal_sowing_months := some [5],
      min_temperature := 0, max_temperature := 50 }
    (by decide)).mpr
    ⟨by simp, by with_unfolding_all decide,
     fun t ht => by injection ht with h; subst h; exact ⟨by norm_num, by norm_num⟩,
     fun months hms => by injection hms with h; subst h; decide⟩

/-- Helper: membership through `insertIntAsc`. -/
theorem insertIntAsc_mem (x : Int) (l : List Int) (y : Int) :
    y ∈ insertIntAsc x l ↔ y = x ∨ y ∈ l := by
  induction l with
  | nil => simp [insertIntAsc]
  | cons a t ih =>
    by_cases h : x ≤ a <;> simp [insertIntAsc, h, ih, List.mem_cons] <;> tauto

/-- Helper: for a non-empty list, `sortIntAsc` starts with a member that is
a lower bound of the whole list. -/
theorem sortIntAsc_min (l : List Int) (hne : l ≠ []) :
    ∃ h t, sortIntAsc l = h :: t ∧ h ∈ l ∧ ∀ x ∈ l, h ≤ x := by
  induction l with
  | nil => exact absurd rfl hne
  | cons a s ih =>
    cases s with
    | nil =>
      refine ⟨a, [], rfl, by simp, ?_⟩
      intro x hx
      rw [List.mem_singleton] at hx
      exact le_of_eq hx.symm
    | cons b t =>
      obtain ⟨h, tt, hsort, hmem, hmin⟩ := ih (by simp)
      have hs : sortIntAsc (a :: b :: t) = insertIntAsc a (sortIntAsc (b :: t)) := rfl
      by_cases hah : a ≤ h
      · refine ⟨a, h :: tt, ?_, by simp, ?_⟩
        · rw [hs, hsort]
          simp [insertIntAsc, hah]
        · intro x hx
          rcases List.mem_cons.mp hx with rfl | hx'
          · exact le_refl x
          · exact le_trans hah (hmin x hx')
      · have hha : h < a := not_le.mp hah
        refine ⟨h, insertIntAsc a tt, ?_, List.mem_cons_of_mem a hmem, ?_⟩
        · rw [hs, hsort]
          simp [insertIntAsc, hah]
        · intro x hx
          rcases List.mem_cons.mp hx with rfl | hx'
          · exact le_of_lt hha
          · exact hmin x hx'

/-- C8: `computeSowingDate` returns today's date when the ideal-sowing-months
list is missing or empty or contains the current month; otherwise it returns
the first day of the nearest future ideal month (the one minimal after the
wrap normalisation `m < current → m + 12`), in next year exactly when the
month wrapped; in particular current month 12 with ideal months {1, 6}
yields next year's month 1, not month 13. -/
theorem computeSowingDate_spec (crop : CatalogCrop) (currentMonth currentYear : Int) :
    (crop.ideal_sowing_months = none →
      CropFilterEngine.computeSowingDate crop currentMonth currentYear = .todayDate)
    ∧ (crop.ideal_sowing_months = some [] →
      CropFilterEngine.computeSowingDate crop currentMonth currentYear = .todayDate)
    ∧ (∀ months : List Int, crop.ideal_sowing_months = some months →
      currentMonth ∈ months →
      CropFilterEngine.computeSowingDate crop currentMonth currentYear = .todayDate)
    ∧ (∀ months : List Int, crop.ideal_sowing_months = some months → months ≠ [] →
      currentMonth ∉ months → 1 ≤ currentMonth → currentMonth ≤ 12 →
      (∀ m ∈ months, 1 ≤ m ∧ m ≤ 12) →
      ∃ m ∈ months,
        CropFilterEngine.computeSowingDate crop currentMonth currentYear
          = .firstOf (currentYear + (if m < currentMonth then 1 else 0)) m
        ∧ ∀ m2 ∈ months,
            (if m < currentMonth then m + 12 else m)
              ≤ (if m2 < currentMonth then m2 + 12 else m2))
    ∧ (crop.ideal_sowing_months = some [1, 6] → currentMonth = 12 →
      CropFilterEngine.computeSowingDate crop currentMonth currentYear
        = .firstOf (currentYear + 1) 1) := by
  refine ⟨?_, ?_, ?_, ?_, ?_⟩
  · intro h
    unfold CropFilterEngine.computeSowingDate
    rw [h]
  · intro h
    unfold CropFilterEngine.computeSowingDate
    rw [h]
    rfl
  · intro months h hmem
    unfold CropFilterEngine.computeSowingDate
    rw [h]
    cases months with
    | nil => exact absurd hmem (List.not_mem_nil _)
    | cons b bs =>
      have hc := (intContains_iff (b :: bs) currentMonth).mpr hmem
      dsimp only
      rw [hc]
      rfl
  · intro months h hne hnotin hcm1 hcm12 hbnd
    have hEmpty : months.isEmpty = false := by
      cases months with
      | nil => exact absurd rfl hne
      | cons _ _ => rfl
    have hc : months.contains currentMonth = false := by
      cases hcon : months.contains currentMonth with
      | false => rfl
      | true => exact absurd ((intContains_iff _ _).mp hcon) hnotin
    have hmapne : months.map (fun m => if m < currentMonth then m + 12 else m) ≠ [] := by
      cases months with
      | nil => exact absurd rfl hne
      | cons _ _ => simp
    obtain ⟨hh, tt, hsort, hmem, hmin⟩ :=
      sortIntAsc_min (months.map (fun m => if m < currentMonth then m + 12 else m)) hmapne
    obtain ⟨m, hmmem, hfm⟩ := List.mem_map.mp hmem
    have hcompute : CropFilterEngine.computeSowingDate crop currentMonth currentYear
        = .firstOf (currentYear + (if hh > 12 then 1 else 0)) ((hh - 1) % 12 + 1) := by
      unfold CropFilterEngine.computeSowingDate
      rw [h]
      simp only [hEmpty, hc, hsort, Bool.false_eq_true, if_false]
    obtain ⟨hm1, hm12⟩ := hbnd m hmmem
    refine ⟨m, hmmem, ?_, ?_⟩
    · rw [hcompute]
      by_cases hmc : m < currentMonth
      · rw [if_pos hmc] at hfm
        have h12 : hh > 12 := by omega
        have e1 : (if hh > 12 then (1:Int) else 0) = (if m < currentMonth then (1:Int) else 0) := by
          rw [if_pos hmc, if_pos h12]
        have e2 : (hh - 1) % 12 + 1 = m := by omega
        rw [e1, e2]
      · rw [if_neg hmc] at hfm
        have h12 : ¬ hh > 12 := by omega
        have e1 : (if hh > 12 then (1:Int) else 0) = (if m < currentMonth then (1:Int) else 0) := by
          rw [if_neg hmc, if_neg h12]
        have e2 : (hh - 1) % 12 + 1 = m := by omega
        rw [e1, e2]
    · intro m2 hm2
      exact hfm ▸ hmin _ (List.mem_map_of_mem _ hm2)
  · intro h h12
    subst h12
    unfold CropFilterEngine.computeSowingDate
    rw [h]
    rfl

/-- C8 witness: a crop with ideal months {1, 6} selected in month 12 sows on
the first day of next year's month 1. -/
theorem computeSowingDate_spec_witness :
    CropFilterEngine.computeSowingDate
        { id := "m", crop_name := "Mustard", ideal_sowing_months := some [1, 6] }
        12 2025
      = .firstOf (2025 + 1) 1 :=
  (computeSowingDate_spec
      { id := "m", crop_name := "Mustard", ideal_sowing_months := some [1, 6] }
      12 2025).2.2.2.2 rfl rfl
